import Mathlib

/-!
Shallow embedding of the ESP32 dashboard repository.

The embedded code:
  * `WebDashboard.cpp` / `WebDashboard.h` (the dashboard server class):
    data structures `SensorData`, `OutputStates`, `SystemInfo`, the
    constructor, `begin`, `loop`, and the request handlers
    `handleStatus`, `handleOutput1`, `handleOutput2`, `handleMode`,
    `handleReset`, `handleCustom`.
  * the standalone template sketch (global `projectMode`, `relayState`,
    handlers `handleRelay`, `handleMode`, `handleReset`, and the `loop`
    auto logic).
  * the clean-template application sketch (`onModeChange`,
    `onRelayChange`, `runApplicationLogic` hysteresis).
  * the DHT weather-station sketch (`loop` sensor-read failure handling).

Conventions: C++ `String`/`const char*` become `String`; `float` becomes
`ℚ` (values are only stored and compared here, never rounded); a possibly
NaN float returned by a fallible sensor read becomes `Option ℚ` with
`none` for NaN; null-able callback pointers become a `Bool` registration
flag (the callback's body, when it lives in the application sketch, is
embedded separately); the externally observable actions of a handler
(callback invocations, HTTP sends, delays, restart) are recorded in order
as a list of events.
-/

namespace Dashboard

/-- JSON values as assembled by ArduinoJson documents in the handlers.
Serialization to text is done by the external ArduinoJson library and is
not modelled; a response carries the document itself. -/
inductive Json where
  | num (n : ℚ)
  | str (s : String)
  | boolean (b : Bool)
  | obj (fields : List (String × Json))
deriving Repr

/-- An HTTP response as produced by `server.send(status, contentType, body)`.
The literal error strings in the C++ (e.g. `{"error":"Invalid request"}`)
are represented by the JSON document they spell. -/
structure HttpResponse where
  status : Nat
  contentType : String
  body : Json
deriving Repr

/-- `struct SensorData` from WebDashboard.h. -/
structure SensorData where
  value1 : ℚ
  value2 : ℚ
  value3 : ℚ
  label1 : String
  label2 : String
  label3 : String
  unit1 : String
  unit2 : String
  unit3 : String
  showValue1 : Bool
  showValue2 : Bool
  showValue3 : Bool
deriving Repr

/-- `struct OutputStates` from WebDashboard.h. -/
structure OutputStates where
  output1 : Bool
  output2 : Bool
  label1 : String
  label2 : String
  showOutput1 : Bool
  showOutput2 : Bool
deriving Repr

/-- `struct SystemInfo` from WebDashboard.h. -/
structure SystemInfo where
  projectName : String
  version : String
  mode : String
  uptime : Nat
deriving Repr

/-- Externally observable actions taken by a WebDashboard request handler,
in program order. -/
inductive Event where
  | output1Call (state : Bool)
  | output2Call (state : Bool)
  | modeCall (mode : String)
  | resetCall
  | customCall
  | send (r : HttpResponse)
  | delayMs (ms : Nat)
  | espRestart
deriving Repr

/-- The `{"success": true}` document sent by the output/mode handlers. -/
def successDoc : Json := Json.obj [("success", Json.boolean true)]

/-- The literal `{"error":"Invalid request"}` body of WebDashboard's 400s. -/
def invalidRequestDoc : Json := Json.obj [("error", Json.str "Invalid request")]

/-- `WebDashboard::handleOutput1`: if the `state` arg is present and the
callback registered, invoke the callback with `arg == "1"` and send
200 `{"success":true}`; otherwise send 400 `{"error":"Invalid request"}`.
`stateArg` is `server.arg("state")` when `server.hasArg("state")`,
`none` otherwise; `cb` is whether `_output1Callback` is non-null. -/
def handleOutput1 (stateArg : Option String) (cb : Bool) : List Event :=
  match stateArg, cb with
  | some s, true =>
      [Event.output1Call (s == "1"),
       Event.send ⟨200, "application/json", successDoc⟩]
  | _, _ => [Event.send ⟨400, "application/json", invalidRequestDoc⟩]

/-- `WebDashboard::handleOutput2`, identical in shape to `handleOutput1`
but against `_output2Callback`. -/
def handleOutput2 (stateArg : Option String) (cb : Bool) : List Event :=
  match stateArg, cb with
  | some s, true =>
      [Event.output2Call (s == "1"),
       Event.send ⟨200, "application/json", successDoc⟩]
  | _, _ => [Event.send ⟨400, "application/json", invalidRequestDoc⟩]

/-- `WebDashboard::handleMode`: if the `mode` arg is present and the mode
callback registered, invoke it with the raw string and send 200
`{"success":true}`; otherwise send 400. -/
def handleMode (modeArg : Option String) (cb : Bool) : List Event :=
  match modeArg, cb with
  | some m, true =>
      [Event.modeCall m,
       Event.send ⟨200, "application/json", successDoc⟩]
  | _, _ => [Event.send ⟨400, "application/json", invalidRequestDoc⟩]

/-- `WebDashboard::handleReset`: invoke `_resetCallback` when non-null,
send 200 `{"success":true}`, `delay(1000)`, then `ESP.restart()` — with
no callback check guarding the response or the restart. -/
def handleReset (cb : Bool) : List Event :=
  (if cb then [Event.resetCall] else []) ++
  [Event.send ⟨200, "application/json", successDoc⟩,
   Event.delayMs 1000,
   Event.espRestart]

/-- `WebDashboard::handleCustom`: invoke `_customCallback` when non-null,
then always send 200 `{"success":true,"message":"Custom action completed"}`. -/
def handleCustom (cb : Bool) : List Event :=
  (if cb then [Event.customCall] else []) ++
  [Event.send ⟨200, "application/json",
    Json.obj [("success", Json.boolean true),
              ("message", Json.str "Custom action completed")]⟩]

/-- The `sensors` object built by `WebDashboard::handleStatus`. -/
def sensorsJson (d : SensorData) : Json :=
  Json.obj [("value1", Json.num d.value1), ("value2", Json.num d.value2),
            ("value3", Json.num d.value3), ("label1", Json.str d.label1),
            ("label2", Json.str d.label2), ("label3", Json.str d.label3),
            ("unit1", Json.str d.unit1), ("unit2", Json.str d.unit2),
            ("unit3", Json.str d.unit3), ("show1", Json.boolean d.showValue1),
            ("show2", Json.boolean d.showValue2),
            ("show3", Json.boolean d.showValue3)]

/-- The `outputs` object built by `WebDashboard::handleStatus`. -/
def outputsJson (d : OutputStates) : Json :=
  Json.obj [("output1", Json.boolean d.output1),
            ("output2", Json.boolean d.output2),
            ("label1", Json.str d.label1), ("label2", Json.str d.label2),
            ("show1", Json.boolean d.showOutput1),
            ("show2", Json.boolean d.showOutput2)]

/-- The `system` object built by `WebDashboard::handleStatus`. -/
def systemJson (d : SystemInfo) : Json :=
  Json.obj [("name", Json.str d.projectName), ("version", Json.str d.version),
            ("mode", Json.str d.mode), ("uptime", Json.num d.uptime)]

/-- The top-level fields of the status document: `handleStatus` adds a
nested object per data pointer that is non-null, in this order. -/
def statusFields (sd : Option SensorData) (os : Option OutputStates)
    (si : Option SystemInfo) : List (String × Json) :=
  (match sd with
   | some d => [("sensors", sensorsJson d)]
   | none => []) ++
  (match os with
   | some d => [("outputs", outputsJson d)]
   | none => []) ++
  (match si with
   | some d => [("system", systemJson d)]
   | none => [])

/-- `WebDashboard::handleStatus`: serialize the document and send it with
status 200 unconditionally. -/
def handleStatus (sd : Option SensorData) (os : Option OutputStates)
    (si : Option SystemInfo) : List Event :=
  [Event.send ⟨200, "application/json", Json.obj (statusFields sd os si)⟩]

/-- The status codes of the HTTP responses sent by a handler run, in
order. -/
def sentStatuses (es : List Event) : List Nat :=
  es.filterMap fun e =>
    match e with
    | Event.send r => some r.status
    | _ => none

/-- The setup performed by `WebDashboard::begin`: fixed soft-AP addressing,
the web server on port 80, and the registered route paths in registration
order. `_ssid`/`_password` are whatever the constructor stored. -/
structure ServerSetup where
  ssid : String
  password : String
  localIP : Nat × Nat × Nat × Nat
  gateway : Nat × Nat × Nat × Nat
  subnet : Nat × Nat × Nat × Nat
  port : Nat
  routes : List String
deriving Repr, DecidableEq

/-- `WebDashboard::begin` as the configuration it installs. -/
def beginSetup (ssid password : String) : ServerSetup :=
  { ssid := ssid
    password := password
    localIP := (192, 168, 4, 1)
    gateway := (192, 168, 4, 1)
    subnet := (255, 255, 255, 0)
    port := 80
    routes := ["/", "/api/status", "/api/output1", "/api/output2",
               "/api/mode", "/api/reset", "/api/custom"] }

/-- `WIFI_SSID` from the clean-template application sketch. -/
def WIFI_SSID : String := "ESP32-Config"

/-- `WIFI_PASSWORD` from the clean-template application sketch. -/
def WIFI_PASSWORD : String := "esp32pass"

/-- `WebDashboard::loop`: one call performs exactly one
`_server->handleClient()` poll when the server was created, and nothing
before `begin` ran (`_server == nullptr`). -/
def dashboardLoop (serverStarted : Bool) : Nat :=
  if serverStarted then 1 else 0

end Dashboard

namespace CleanTemplate

/-!
The clean-template application sketch: global state `currentMode`,
`ledState`, `relayState`, `sensorValue`, and the callbacks/logic wired to
the WebDashboard instance.
-/

/-- `onModeChange` from the clean-template sketch: store the string
verbatim into `currentMode` (no validation, no transition check); the only
mode-specific branch compares against `"sleep"` and merely logs. The
second component records whether that sleep branch was taken. -/
def onModeChange (mode : String) : String × Bool :=
  (mode, mode == "sleep")

/-- `onRelayChange` from the clean-template sketch, acting on
(relayState, relay pin level, outputs.output2): assignments happen only
under `currentMode == "manual"`. -/
def onRelayChange (state : Bool) (currentMode : String)
    (relayState pin out2 : Bool) : Bool × Bool × Bool :=
  if currentMode == "manual" then (state, state, state)
  else (relayState, pin, out2)

/-- The auto-mode hysteresis of `runApplicationLogic`, acting on
(relayState, relay pin level): in `"auto"` mode the relay turns on when
`sensorValue > 2000` while off, turns off when `sensorValue < 1500` while
on, and is untouched otherwise; no other mode branch writes the relay
(the `"sleep"` branch is empty). -/
def runApplicationLogic (currentMode : String) (sensorValue : Int)
    (relayState : Bool) : Bool :=
  if currentMode == "auto" then
    if sensorValue > 2000 && !relayState then true
    else if sensorValue < 1500 && relayState then false
    else relayState
  else relayState

/-- Successive relay states produced by running `runApplicationLogic` in
`"auto"` mode over a list of sensor readings. -/
def runAuto (vals : List Int) (relayState : Bool) : List Bool :=
  match vals with
  | [] => []
  | v :: rest =>
      let r := runApplicationLogic "auto" v relayState
      r :: runAuto rest r

/-- Number of off-to-on transitions along a state trace starting from
`r0`. -/
def countRises (r0 : Bool) : List Bool → Nat
  | [] => 0
  | r :: rest => (if !r0 && r then 1 else 0) + countRises r rest

end CleanTemplate

namespace Standalone

/-!
The standalone (all-in-one) template sketch: globals `projectMode`,
`ledState`, `relayState`, and handlers that mutate them directly.
-/

open Dashboard (Json HttpResponse)

/-- The global state the relay handler touches: `projectMode`,
`relayState`, and the RELAY_PIN output level. -/
structure RelayCtx where
  projectMode : String
  relayState : Bool
  relayPin : Bool
deriving Repr, DecidableEq

/-- `handleRelay` from the standalone sketch: with a `state` arg present,
parse `arg == "1"`, mutate relay state and pin only under
`projectMode == "manual"`, and reply 200 with
`{"success":true,"relay":<current relayState>}` regardless; without the
arg, reply 400 `{"error":"Missing state parameter"}` and change nothing. -/
def handleRelay (stateArg : Option String) (c : RelayCtx) :
    RelayCtx × HttpResponse :=
  match stateArg with
  | some s =>
      let state := s == "1"
      let c' := if c.projectMode == "manual"
                then { c with relayState := state, relayPin := state }
                else c
      (c', ⟨200, "application/json",
            Json.obj [("success", Json.boolean true),
                      ("relay", Json.boolean c'.relayState)]⟩)
  | none =>
      (c, ⟨400, "application/json",
           Json.obj [("error", Json.str "Missing state parameter")]⟩)

/-- `handleMode` from the standalone sketch: store the raw `mode` arg into
`projectMode` verbatim and reply success; 400 when the arg is missing. -/
def handleMode (modeArg : Option String) (projectMode : String) :
    String × HttpResponse :=
  match modeArg with
  | some m =>
      (m, ⟨200, "application/json",
           Json.obj [("success", Json.boolean true),
                     ("mode", Json.str m)]⟩)
  | none =>
      (projectMode, ⟨400, "application/json",
                     Json.obj [("error", Json.str "Missing mode parameter")]⟩)

/-- The auto branch of the standalone sketch's `loop`: with
`projectMode == "auto"`, the relay follows a single threshold
(`sensorValue > 2000` on, else off) with no lower hysteresis threshold. -/
def loopAuto (projectMode : String) (sensorValue : Int)
    (relayState : Bool) : Bool :=
  if projectMode == "auto" then
    if sensorValue > 2000 then true else false
  else relayState

/-- Successive relay states produced by the standalone sketch's `loop`
auto branch over a list of sensor readings. -/
def runLoopAuto (vals : List Int) (relayState : Bool) : List Bool :=
  match vals with
  | [] => []
  | v :: rest =>
      let r := loopAuto "auto" v relayState
      r :: runLoopAuto rest r

end Standalone

namespace Weather

/-!
The DHT weather-station sketch: `loop`'s sensor-read block and the
auto-mode fan hysteresis.
-/

/-- One sensor-read cycle of the weather sketch's `loop`. A NaN float
returned by `dht.readTemperature()`/`dht.readHumidity()` is `none`.
If either read is NaN, the block logs the failure and sets both
`temperature` and `humidity` to 0, leaving `sensors.value3` alone;
otherwise it stores the reads and the heat index computed by the external
DHT library (passed in as `heatIndex`). The last component records
whether the failure was logged. -/
def sensorReadCycle (heatIndex : ℚ → ℚ → ℚ)
    (tRead hRead : Option ℚ) (value3 : ℚ) : ℚ × ℚ × ℚ × Bool :=
  match tRead, hRead with
  | some t, some h => (t, h, heatIndex t h, false)
  | _, _ => (0, 0, value3, true)

/-- Running successive read cycles over a list of (temperature, humidity)
read results: each cycle consumes exactly one pair of reads (no retry)
and the loop always proceeds to the next cycle. -/
def runReadCycles (heatIndex : ℚ → ℚ → ℚ)
    (reads : List (Option ℚ × Option ℚ)) (value3 : ℚ) :
    List (ℚ × ℚ × ℚ × Bool) :=
  match reads with
  | [] => []
  | (t, h) :: rest =>
      let c := sensorReadCycle heatIndex t h value3
      c :: runReadCycles heatIndex rest c.2.2.1

/-- `onFanControl` from the weather sketch, acting on
(fanState, LED pin level): assignments happen only under
`mode == "manual"`. -/
def onFanControl (state : Bool) (mode : String) (fanState pin : Bool) :
    Bool × Bool :=
  if mode == "manual" then (state, state) else (fanState, pin)

/-- `TEMP_THRESHOLD` from the weather sketch. -/
def TEMP_THRESHOLD : ℚ := 25

/-- The auto-mode fan control in the weather sketch's `loop`: on above
`TEMP_THRESHOLD` while off, off below `TEMP_THRESHOLD - 1.0` while on. -/
def fanAuto (mode : String) (temperature : ℚ) (fanState : Bool) : Bool :=
  if mode == "auto" then
    if temperature > TEMP_THRESHOLD && !fanState then true
    else if temperature < TEMP_THRESHOLD - 1 && fanState then false
    else fanState
  else fanState

end Weather

/-! ## Helper lemmas shared by the claim theorems -/

namespace CleanTemplate

theorem runApplicationLogic_on_of_high (v : Int) (h : 2000 < v) :
    runApplicationLogic "auto" v false = true := by
  simp [runApplicationLogic, h]

theorem runApplicationLogic_stay_on (v : Int) (h : 1500 ≤ v) :
    runApplicationLogic "auto" v true = true := by
  simp [runApplicationLogic]
  omega

theorem runAuto_all_on (vl : Int) (hl : vl < 1500) :
    ∀ (mid : List Int), (∀ v ∈ mid, 1500 ≤ v) →
      runAuto (mid ++ [vl]) true = List.replicate mid.length true ++ [false]
  | [], _ => by
      simp [runAuto, runApplicationLogic, hl]
  | v :: rest, hmid => by
      have hv : 1500 ≤ v := hmid v (List.mem_cons_self v rest)
      have ih := runAuto_all_on vl hl rest
        (fun w hw => hmid w (List.mem_cons_of_mem v hw))
      simp [runAuto, runApplicationLogic_stay_on v hv, ih,
        List.replicate_succ]

theorem countRises_all_on (n : Nat) :
    countRises true (List.replicate n true ++ [false]) = 0 := by
  induction n with
  | zero => rfl
  | succ k ih => simpa [List.replicate_succ, countRises] using ih

end CleanTemplate

namespace Weather

theorem runReadCycles_length (hi : ℚ → ℚ → ℚ) :
    ∀ (reads : List (Option ℚ × Option ℚ)) (v3 : ℚ),
      (runReadCycles hi reads v3).length = reads.length
  | [], _ => rfl
  | (t, h) :: rest, v3 => by
      simp [runReadCycles, runReadCycles_length hi rest]

end Weather

/-! ## Claim theorems -/

open Dashboard

/-- Claim C1: for an output endpoint request whose `state` parameter is
present with a valid boolean value (`"0"` or `"1"`) and whose callback is
registered, the handler invokes the callback exactly once with the
boolean value of the parameter (true iff `"1"`) and sends a single HTTP
200 JSON response with `success=true`. The event trace is exactly one
callback invocation followed by one 200 success send. -/
theorem output_state_callback_invoked_once (s : String)
    (hs : s = "0" ∨ s = "1") :
    handleOutput1 (some s) true =
      [Event.output1Call (s == "1"),
       Event.send ⟨200, "application/json", successDoc⟩] ∧
    handleOutput2 (some s) true =
      [Event.output2Call (s == "1"),
       Event.send ⟨200, "application/json", successDoc⟩] ∧
    ((s == "1") = true ↔ s = "1") ∧
    sentStatuses (handleOutput1 (some s) true) = [200] ∧
    sentStatuses (handleOutput2 (some s) true) = [200] := by
  refine ⟨rfl, rfl, ?_, rfl, rfl⟩
  exact beq_iff_eq

/-- Witness for C1 at the concrete input `state = "1"`. -/
theorem output_state_callback_invoked_once_witness :
    handleOutput1 (some "1") true =
      [Event.output1Call ("1" == "1"),
       Event.send ⟨200, "application/json", successDoc⟩] ∧
    handleOutput2 (some "1") true =
      [Event.output2Call ("1" == "1"),
       Event.send ⟨200, "application/json", successDoc⟩] ∧
    (("1" == "1") = true ↔ "1" = "1") ∧
    sentStatuses (handleOutput1 (some "1") true) = [200] ∧
    sentStatuses (handleOutput2 (some "1") true) = [200] :=
  output_state_callback_invoked_once "1" (Or.inr rfl)

/-- Claim C2, counterexample: a request to `/api/custom` with no
registered callback is answered 200 (not 400), and a request to
`/api/reset` with no registered callback is likewise answered 200 and
still restarts the device. -/
theorem no_callback_custom_returns_success :
    sentStatuses (handleCustom false) = [200] ∧
    sentStatuses (handleCustom false) ≠ [400] ∧
    sentStatuses (handleReset false) = [200] ∧
    Event.espRestart ∈ handleReset false := by
  refine ⟨rfl, by decide, rfl, ?_⟩
  simp [handleReset]

/-- Claim C2 as amended: for the parameterized control endpoints
(`/api/output1`, `/api/output2`, `/api/mode`) an unregistered callback
yields exactly one HTTP 400 JSON-error response and no other event (no
callback invocation, no restart); `/api/reset` and `/api/custom` do not
require a registered callback and always respond 200 success, with
`/api/reset` additionally restarting the device. -/
theorem no_callback_behavior (a : Option String) :
    handleOutput1 a false =
      [Event.send ⟨400, "application/json", invalidRequestDoc⟩] ∧
    handleOutput2 a false =
      [Event.send ⟨400, "application/json", invalidRequestDoc⟩] ∧
    handleMode a false =
      [Event.send ⟨400, "application/json", invalidRequestDoc⟩] ∧
    handleReset false =
      [Event.send ⟨200, "application/json", successDoc⟩,
       Event.delayMs 1000, Event.espRestart] ∧
    handleCustom false =
      [Event.send ⟨200, "application/json",
        Json.obj [("success", Json.boolean true),
                  ("message", Json.str "Custom action completed")]⟩] := by
  cases a <;> exact ⟨rfl, rfl, rfl, rfl, rfl⟩

/-- Claim C3, counterexample: the standalone sketch's auto loop is not
hysteretic: after turning on above 2000 it turns off again at 1800, a
value inside the clean template's 1500–2000 hysteresis band that has not
fallen below any strictly lower threshold, so the trace 2500, 1800,
2500, 1800 — none of whose readings is below 1500 — shows two off-to-on
transitions instead of the claimed single one. -/
theorem standalone_auto_no_hysteresis :
    Standalone.runLoopAuto [2500, 1800, 2500, 1800] false =
      [true, false, true, false] ∧
    CleanTemplate.countRises false
      (Standalone.runLoopAuto [2500, 1800, 2500, 1800] false) = 2 ∧
    List.all [2500, 1800, 2500, 1800]
      (fun v => decide ((1500 : Int) ≤ v)) = true :=
  ⟨rfl, rfl, rfl⟩

/-- Claim C3 as amended: in `"auto"` mode the clean-template control
loop drives the relay with hysteresis: starting from off, a reading
above the upper threshold (2000) turns the relay on; it then stays on
for every reading at or above the lower threshold (1500) and turns off
at the first reading below it, so the whole trace contains exactly one
off-to-on transition between the upper-threshold crossing and the next
lower-threshold crossing. The standalone sketch's loop instead drives
the relay with the single threshold 2000 — each cycle the relay is on
iff the reading exceeds 2000, regardless of its previous state — so it
has no strictly lower threshold and no hysteresis. -/
theorem auto_mode_hysteresis_single_rise (v0 vl w : Int)
    (mid : List Int) (r : Bool)
    (h0 : 2000 < v0) (hmid : ∀ v ∈ mid, 1500 ≤ v) (hl : vl < 1500) :
    CleanTemplate.runAuto (v0 :: (mid ++ [vl])) false =
      List.replicate (mid.length + 1) true ++ [false] ∧
    CleanTemplate.countRises false
      (CleanTemplate.runAuto (v0 :: (mid ++ [vl])) false) = 1 ∧
    Standalone.loopAuto "auto" w r = decide (2000 < w) := by
  have h1 : CleanTemplate.runAuto (v0 :: (mid ++ [vl])) false =
      true :: CleanTemplate.runAuto (mid ++ [vl]) true := by
    simp [CleanTemplate.runAuto,
      CleanTemplate.runApplicationLogic_on_of_high v0 h0]
  have h2 := CleanTemplate.runAuto_all_on vl hl mid hmid
  refine ⟨?_, ?_, ?_⟩
  · rw [h1, h2, List.replicate_succ]
    simp
  · rw [h1, h2]
    simp [CleanTemplate.countRises, CleanTemplate.countRises_all_on]
  · by_cases hw : 2000 < w <;> simp [Standalone.loopAuto, hw]

/-- Witness for C3 on the concrete trace 2500, 1800, 1600, 3000, 1400,
with the standalone loop evaluated at the in-band reading 1800 from the
on state. -/
theorem auto_mode_hysteresis_single_rise_witness :
    CleanTemplate.runAuto (2500 :: ([1800, 1600, 3000] ++ [1400])) false =
      List.replicate ([1800, 1600, 3000].length + 1) true ++ [false] ∧
    CleanTemplate.countRises false
      (CleanTemplate.runAuto (2500 :: ([1800, 1600, 3000] ++ [1400]))
        false) = 1 ∧
    Standalone.loopAuto "auto" 1800 true = decide ((2000 : Int) < 1800) :=
  auto_mode_hysteresis_single_rise 2500 1400 1800 [1800, 1600, 3000]
    true (by decide) (by decide) (by decide)

/-- Claim C4: `/api/status` always answers 200; the top-level keys of its
JSON document are exactly `sensors`/`outputs`/`system` for whichever data
references are set, each key present iff the reference is set, and with
all three unset the document is the empty object. -/
theorem status_fields_match_refs (sd : Option SensorData)
    (os : Option OutputStates) (si : Option SystemInfo) :
    sentStatuses (handleStatus sd os si) = [200] ∧
    (statusFields sd os si).map Prod.fst =
      ((if sd.isSome then ["sensors"] else []) ++
       (if os.isSome then ["outputs"] else []) ++
       (if si.isSome then ["system"] else [])) ∧
    (("sensors" ∈ (statusFields sd os si).map Prod.fst) ↔
      sd.isSome = true) ∧
    (("outputs" ∈ (statusFields sd os si).map Prod.fst) ↔
      os.isSome = true) ∧
    (("system" ∈ (statusFields sd os si).map Prod.fst) ↔
      si.isSome = true) ∧
    statusFields none none none = ([] : List (String × Json)) := by
  cases sd <;> cases os <;> cases si <;>
    simp [statusFields, sentStatuses, handleStatus]

/-- Claim C5: `/api/reset` invokes the reset callback exactly when one is
registered, then sends the 200 success response, then waits the fixed
1000 ms delay, then restarts; in particular the response is emitted
before the delay and the restart happens on every trace, registered
callback or not. -/
theorem reset_sequence_order (cb : Bool) :
    handleReset true =
      [Event.resetCall,
       Event.send ⟨200, "application/json", successDoc⟩,
       Event.delayMs 1000, Event.espRestart] ∧
    handleReset false =
      [Event.send ⟨200, "application/json", successDoc⟩,
       Event.delayMs 1000, Event.espRestart] ∧
    Event.espRestart ∈ handleReset cb ∧
    sentStatuses (handleReset cb) = [200] := by
  cases cb <;> refine ⟨rfl, rfl, ?_, rfl⟩ <;> simp [handleReset]

/-- Claim C6: any `mode` string sent to `/api/mode` (parameter present,
callback registered) is accepted with a success response and stored
verbatim as the current mode, independently of the previous mode (no
transition-legality check); a string outside `auto`/`manual`/`sleep` is
inert: it takes no mode-specific branch and the auto logic leaves the
output untouched under it. -/
theorem mode_stored_verbatim_inert (s m prev : String) (v : Int)
    (r : Bool) (h1 : m ≠ "auto") (h2 : m ≠ "manual") (h3 : m ≠ "sleep") :
    handleMode (some s) true =
      [Event.modeCall s,
       Event.send ⟨200, "application/json", successDoc⟩] ∧
    (CleanTemplate.onModeChange s).1 = s ∧
    (Standalone.handleMode (some s) prev).1 = s ∧
    (Standalone.handleMode (some s) prev).2.status = 200 ∧
    (CleanTemplate.onModeChange m).2 = false ∧
    CleanTemplate.runApplicationLogic m v r = r ∧
    Standalone.loopAuto m v r = r := by
  refine ⟨rfl, rfl, rfl, rfl, ?_, ?_, ?_⟩
  · simp [CleanTemplate.onModeChange, h3]
  · simp [CleanTemplate.runApplicationLogic, h1]
  · simp [Standalone.loopAuto, h1]

/-- Witness for C6 with the arbitrary string `"turbo"` accepted and the
unmatched string `"boost"` inert. -/
theorem mode_stored_verbatim_inert_witness :
    handleMode (some "turbo") true =
      [Event.modeCall "turbo",
       Event.send ⟨200, "application/json", successDoc⟩] ∧
    (CleanTemplate.onModeChange "turbo").1 = "turbo" ∧
    (Standalone.handleMode (some "turbo") "auto").1 = "turbo" ∧
    (Standalone.handleMode (some "turbo") "auto").2.status = 200 ∧
    (CleanTemplate.onModeChange "boost").2 = false ∧
    CleanTemplate.runApplicationLogic "boost" 2500 false = false ∧
    Standalone.loopAuto "boost" 2500 false = false :=
  mode_stored_verbatim_inert "turbo" "boost" "auto" 2500 false
    (by decide) (by decide) (by decide)

/-- Claim C7: a control-loop cycle in which a sensor read returns NaN
substitutes zero for the readings, logs the failure, and the loop
proceeds to the next cycle (the cycle trace keeps its length and the next
cycle consumes the next reading; there is no retry of the failed read). -/
theorem sensor_nan_zero_substitution (hi : ℚ → ℚ → ℚ)
    (t h : Option ℚ) (v3 : ℚ) (reads : List (Option ℚ × Option ℚ))
    (hfail : t = none ∨ h = none) :
    Weather.sensorReadCycle hi t h v3 = (0, 0, v3, true) ∧
    Weather.runReadCycles hi ((t, h) :: reads) v3 =
      (0, 0, v3, true) :: Weather.runReadCycles hi reads v3 ∧
    (Weather.runReadCycles hi ((t, h) :: reads) v3).length =
      reads.length + 1 := by
  have hc : Weather.sensorReadCycle hi t h v3 = (0, 0, v3, true) := by
    rcases hfail with rfl | rfl
    · cases h <;> rfl
    · cases t <;> rfl
  refine ⟨hc, ?_, ?_⟩
  · simp only [Weather.runReadCycles, hc]
  · simp [Weather.runReadCycles_length]

/-- Witness for C7 at a concrete failed temperature read. -/
theorem sensor_nan_zero_substitution_witness :
    Weather.sensorReadCycle (fun _ _ => 0) none (some 21) 7 =
      (0, 0, 7, true) ∧
    Weather.runReadCycles (fun _ _ => 0)
        ((none, some 21) :: [(some 20, some 50)]) 7 =
      (0, 0, 7, true) ::
        Weather.runReadCycles (fun _ _ => 0) [(some 20, some 50)] 7 ∧
    (Weather.runReadCycles (fun _ _ => 0)
        ((none, some 21) :: [(some 20, some 50)]) 7).length =
      [((some 20 : Option ℚ), (some 50 : Option ℚ))].length + 1 :=
  sensor_nan_zero_substitution (fun _ _ => 0) none (some 21) 7
    [(some 20, some 50)] (Or.inl rfl)

/-- Claim C8: a relay/output2 request with the `state` parameter present
still answers `success=true` when the mode is not `"manual"`, but leaves
the relay state variable and the relay pin unchanged (in all three
sketches' callbacks); the relay is mutated only under mode `"manual"`,
where it is set to the parsed state. -/
theorem relay_unchanged_outside_manual (s : String)
    (c : Standalone.RelayCtx) (b r p o f q : Bool)
    (hm : c.projectMode ≠ "manual") :
    (Standalone.handleRelay (some s) c).1 = c ∧
    (Standalone.handleRelay (some s) c).2 =
      ⟨200, "application/json",
       Json.obj [("success", Json.boolean true),
                 ("relay", Json.boolean c.relayState)]⟩ ∧
    CleanTemplate.onRelayChange b c.projectMode r p o = (r, p, o) ∧
    Weather.onFanControl b c.projectMode f q = (f, q) ∧
    (Standalone.handleRelay (some s)
        { projectMode := "manual", relayState := r, relayPin := p }).1 =
      { projectMode := "manual", relayState := (s == "1"),
        relayPin := (s == "1") } := by
  refine ⟨?_, ?_, ?_, ?_, rfl⟩
  · simp [Standalone.handleRelay, hm]
  · simp [Standalone.handleRelay, hm]
  · simp [CleanTemplate.onRelayChange, hm]
  · simp [Weather.onFanControl, hm]

/-- Witness for C8 with mode `"auto"` and `state = "1"`. -/
theorem relay_unchanged_outside_manual_witness :
    (Standalone.handleRelay (some "1")
        ⟨"auto", false, false⟩).1 = ⟨"auto", false, false⟩ ∧
    (Standalone.handleRelay (some "1") ⟨"auto", false, false⟩).2 =
      ⟨200, "application/json",
       Json.obj [("success", Json.boolean true),
                 ("relay", Json.boolean false)]⟩ ∧
    CleanTemplate.onRelayChange true "auto" false false false =
      (false, false, false) ∧
    Weather.onFanControl true "auto" false false = (false, false) ∧
    (Standalone.handleRelay (some "1")
        { projectMode := "manual", relayState := false,
          relayPin := false }).1 =
      { projectMode := "manual", relayState := ("1" == "1"),
        relayPin := ("1" == "1") } :=
  relay_unchanged_outside_manual "1" ⟨"auto", false, false⟩
    true false false false false false (by decide)

/-- Claim C9: the output handlers interpret the `state` parameter as true
iff it equals exactly `"1"`; any other string (e.g. `"true"`, `"2"`,
`""`) yields a callback invocation with `false` and the request still
succeeds with a 200 success response instead of being rejected. -/
theorem state_param_strict_one (s : String) (hs : s ≠ "1") :
    handleOutput1 (some s) true =
      [Event.output1Call false,
       Event.send ⟨200, "application/json", successDoc⟩] ∧
    handleOutput2 (some s) true =
      [Event.output2Call false,
       Event.send ⟨200, "application/json", successDoc⟩] ∧
    handleOutput1 (some "1") true =
      [Event.output1Call true,
       Event.send ⟨200, "application/json", successDoc⟩] ∧
    sentStatuses (handleOutput1 (some s) true) = [200] := by
  have hb : (s == "1") = false := by
    simp [hs]
  exact ⟨by simp [handleOutput1, hb], by simp [handleOutput2, hb],
    rfl, rfl⟩

/-- Witness for C9 at the concrete non-boolean value `"true"`. -/
theorem state_param_strict_one_witness :
    handleOutput1 (some "true") true =
      [Event.output1Call false,
       Event.send ⟨200, "application/json", successDoc⟩] ∧
    handleOutput2 (some "true") true =
      [Event.output2Call false,
       Event.send ⟨200, "application/json", successDoc⟩] ∧
    handleOutput1 (some "1") true =
      [Event.output1Call true,
       Event.send ⟨200, "application/json", successDoc⟩] ∧
    sentStatuses (handleOutput1 (some "true") true) = [200] :=
  state_param_strict_one "true" (by decide)

/-- Claim C10: `begin()` installs the fixed access-point configuration
(SSID `ESP32-Config`, password `esp32pass`, IP 192.168.4.1) and an HTTP
server on port 80 with exactly the routes `/`, `/api/status`,
`/api/output1`, `/api/output2`, `/api/mode`, `/api/reset`,
`/api/custom`; each `loop()` call performs exactly one poll of the
listener once the server exists, and none before. -/
theorem begin_fixed_config :
    beginSetup WIFI_SSID WIFI_PASSWORD =
      { ssid := "ESP32-Config", password := "esp32pass",
        localIP := (192, 168, 4, 1), gateway := (192, 168, 4, 1),
        subnet := (255, 255, 255, 0), port := 80,
        routes := ["/", "/api/status", "/api/output1", "/api/output2",
                   "/api/mode", "/api/reset", "/api/custom"] } ∧
    (beginSetup WIFI_SSID WIFI_PASSWORD).routes.length = 7 ∧
    dashboardLoop true = 1 ∧ dashboardLoop false = 0 :=
  ⟨rfl, rfl, rfl, rfl⟩
